import Mathlib

/-!
Verification of the credit-card fraud-detection repository's feature
derivation and decision logic, as a shallow embedding in Lean.

Embedding conventions:
* timestamps are natural numbers of seconds (the data has second resolution);
* monetary amounts and probabilities are rationals (exact arithmetic in
  place of floating point);
* the pandas sort by `['cc_num', 'trans_date_trans_time']` followed by
  `groupby('cc_num')` is modelled per card as a stable insertion sort on the
  timestamp, ties kept in arrival order;
* coordinates for the haversine formula are real numbers.
-/

namespace Fraud

/-! ### Decision data model (backend_api.py, predict pipelines) -/

inductive Decision where
  | ALLOW
  | REVIEW
  | BLOCK
deriving DecidableEq, Repr

inductive Confidence where
  | low
  | medium
  | high
deriving DecidableEq, Repr

/-- Binary prediction `fraud_pred = int(fraud_prob >= 0.5)` from `predict_fraud` in
backend_api.py (line 200). -/
def fraudPred (p : ℚ) : ℕ :=
  if (0.5 : ℚ) ≤ p then 1 else 0

/-- The 3-tier decision logic of `predict_fraud` in backend_api.py
(lines 202-214): the if/elif/else ladder on `fraud_prob`, returning the
decision together with the confidence level. -/
def backendDecision (p : ℚ) : Decision × Confidence :=
  if (0.8 : ℚ) ≤ p then (Decision.BLOCK, Confidence.high)
  else if (0.5 : ℚ) ≤ p then (Decision.REVIEW, Confidence.medium)
  else (Decision.ALLOW, if p < (0.2 : ℚ) then Confidence.high else Confidence.medium)

/-- Binary prediction `preds = (prob >= 0.5).astype(int)` from `predictpipeline.predict` in
src/src/pipeline/predict_pipeline.py (line 60). -/
def bulkFraudPred (p : ℚ) : ℕ :=
  if (0.5 : ℚ) ≤ p then 1 else 0

/-- The pandas `Series.map({0: 'ALLOW', 1: 'BLOCK'})` lookup from
src/src/pipeline/predict_pipeline.py (line 68); values outside the mapping
keys would become missing, hence the `Option`. -/
def decisionMap (n : ℕ) : Option Decision :=
  match n with
  | 0 => some Decision.ALLOW
  | 1 => some Decision.BLOCK
  | _ => none

/-- Decision column produced by the bulk pipeline `predictpipeline.predict`
for a row whose fraud probability is `p`. -/
def bulkDecision (p : ℚ) : Option Decision :=
  decisionMap (bulkFraudPred p)

/-! ### GeoDistance (DataIngestion.haversine, src/src/components/data_ingestion.py) -/

/-- Conversion `math.radians`: degrees to radians. -/
noncomputable def radiansOf (x : ℝ) : ℝ := x * (Real.pi / 180)

/-- Function `DataIngestion.haversine` (data_ingestion.py lines 29-35), over the
reals: argument order is `(lat1, lon1, lat2, lon2)` and the result is the
great-circle distance with Earth radius 6371 km.  The Python function
performs no range checking on its inputs. -/
noncomputable def haversine (lat1 lon1 lat2 lon2 : ℝ) : ℝ :=
  let rlon1 := radiansOf lon1
  let rlat1 := radiansOf lat1
  let rlon2 := radiansOf lon2
  let rlat2 := radiansOf lat2
  let dlon := rlon2 - rlon1
  let dlat := rlat2 - rlat1
  let a := Real.sin (dlat / 2) ^ 2 +
    Real.cos rlat1 * Real.cos rlat2 * Real.sin (dlon / 2) ^ 2
  let c := 2 * Real.arcsin (Real.sqrt a)
  6371 * c

/-- The coordinate-range constraints of `TransactionRequest` in
backend_api.py (lines 88-91): pydantic `Field(ge=-90, le=90)` on the two
latitudes and `Field(ge=-180, le=180)` on the two longitudes. -/
def coordsValid (lat lon mlat mlon : ℚ) : Bool :=
  decide ((-90 : ℚ) ≤ lat) && decide (lat ≤ (90 : ℚ)) &&
  decide ((-180 : ℚ) ≤ lon) && decide (lon ≤ (180 : ℚ)) &&
  decide ((-90 : ℚ) ≤ mlat) && decide (mlat ≤ (90 : ℚ)) &&
  decide ((-180 : ℚ) ≤ mlon) && decide (mlon ≤ (180 : ℚ))

/-! ### Transactions and the derived features of `DataIngestion.initiate_data_ingestion`
(src/src/components/data_ingestion.py, lines 69-101) -/

/-- The fields of a raw transaction row used by the time-based feature
derivation: card number, timestamp (seconds), amount, merchant identifier. -/
structure Txn where
  cc_num : ℕ
  ts : ℕ
  amt : ℚ
  merchant : ℕ
deriving DecidableEq, Repr

/-- Timestamp order on transactions: the sort key of
`df.sort_values(['cc_num', 'trans_date_trans_time'])` restricted to the
rows of one card. -/
def tsLe (a b : Txn) : Prop := a.ts ≤ b.ts

instance : DecidableRel tsLe := fun a b => Nat.decLe a.ts b.ts

instance : IsTotal Txn tsLe := ⟨fun a b => Nat.le_total a.ts b.ts⟩

instance : IsTrans Txn tsLe := ⟨fun _ _ _ h h2 => Nat.le_trans h h2⟩

instance : IsRefl Txn tsLe := ⟨fun a => Nat.le_refl a.ts⟩

/-- Stable sort of a card's rows by timestamp, ties kept in arrival
order: models `sort_values(['cc_num', 'trans_date_trans_time'])` within a
single card group. -/
def sortTs (l : List Txn) : List Txn := l.insertionSort tsLe

/-- The rows of card `c`, in the order the grouped, sorted dataframe
presents them to `diff` / `rolling` / `expanding` / `duplicated`. -/
def cardTxns (df : List Txn) (c : ℕ) : List Txn :=
  sortTs (df.filter (fun x => x.cc_num == c))

/-- Feature `txn_time_gap` (data_ingestion.py lines 72-77) for a row `t` whose
preceding rows on the card (in sorted order) are `p`:
`groupby('cc_num')['trans_date_trans_time'].diff().dt.seconds.fillna(0)`.
`.dt.seconds` is the seconds *component* of the timedelta, i.e. the
elapsed seconds modulo 86400; the first row of a card gets 0. -/
def txnTimeGap (p : List Txn) (t : Txn) : ℕ :=
  match p.getLast? with
  | none => 0
  | some prev => (t.ts - prev.ts) % 86400

/-- Feature `txn_count_1h` (data_ingestion.py lines 80-87) for a row `t` with
preceding card rows `p`: `rolling('1h').count()` on the timestamp index
counts the rows up to and including `t` whose timestamp lies in the
right-closed window `(t.ts - 3600, t.ts]`; since `p` is timestamp-sorted
below `t`, that is the preceding rows with `t.ts < e.ts + 3600`, plus one
for `t` itself. -/
def txnCount1h (p : List Txn) (t : Txn) : ℕ :=
  (p.filter (fun e => decide (t.ts < e.ts + 3600))).length + 1

/-- Feature `avg_amt_per_card` (data_ingestion.py lines 91-93) for a row with
preceding card rows `p`: `expanding().mean().shift(1)` is the mean of the
amounts of the preceding rows, and the first row's missing value is filled
with `med` (`df['amt'].median()`, the global median amount). -/
def avgAmt (med : ℚ) (p : List Txn) : ℚ :=
  if p.isEmpty then med else (p.map Txn.amt).sum / p.length

/-- Feature `amt_deviation = df['amt'] / (df['avg_amt_per_card'] + 1)`
(data_ingestion.py line 94). -/
def amtDeviation (med : ℚ) (p : List Txn) (t : Txn) : ℚ :=
  t.amt / (avgAmt med p + 1)

/-- Feature `is_new_merchant` (data_ingestion.py lines 97-101):
`~duplicated()` within the card group marks a row 1 exactly when its
merchant does not occur among the preceding rows `p` of the card. -/
def isNewMerchant (p : List Txn) (t : Txn) : ℕ :=
  if p.any (fun e => e.merchant == t.merchant) then 0 else 1

/-- Median `Series.median()` of pandas: middle element of the sorted values for
odd length, mean of the two middle elements for even length. -/
def medianQ (l : List ℚ) : ℚ :=
  let s := l.insertionSort (· ≤ ·)
  let n := s.length
  if n = 0 then 0
  else if n % 2 = 1 then s.getD (n / 2) 0
  else (s.getD (n / 2 - 1) 0 + s.getD (n / 2) 0) / 2

/-- Constant `df['amt'].median()` over the full dataset (data_ingestion.py line 93). -/
def globalMedian (df : List Txn) : ℚ :=
  medianQ (df.map Txn.amt)

/-- The five derived statistics of one row. -/
structure FeatRow where
  txn_time_gap : ℕ
  txn_count_1h : ℕ
  avg_amt_per_card : ℚ
  amt_deviation : ℚ
  is_new_merchant : ℕ
deriving DecidableEq, Repr

/-- The feature row the derivation computes for a transaction `t` whose
preceding rows on the card (in sorted order) are `p`, with global
median amount `med`. -/
def featRow (med : ℚ) (p : List Txn) (t : Txn) : FeatRow :=
  ⟨txnTimeGap p t, txnCount1h p t, avgAmt med p,
    amtDeviation med p t, isNewMerchant p t⟩

/-- Walk a card's sorted rows accumulating the positional prefix, pairing
each row with its derived feature row. -/
def deriveAux (med : ℚ) (p : List Txn) : List Txn → List (Txn × FeatRow)
  | [] => []
  | t :: r => (t, featRow med p t) :: deriveAux med (p ++ [t]) r

/-- Bulk feature derivation for the rows of card `c` of dataset `df`. -/
def deriveCard (df : List Txn) (c : ℕ) : List (Txn × FeatRow) :=
  deriveAux (globalMedian df) [] (cardTxns df c)

/-! ### Spec-side notions used by the claims -/

/-- The causal prefix of the spec: the entries of the (sorted) card group
`g` with timestamp strictly earlier than `t`'s. -/
def causalPast (g : List Txn) (t : Txn) : List Txn :=
  g.filter (fun e => decide (e.ts < t.ts))

/-- Arithmetic mean of a list of rationals. -/
def listMean (xs : List ℚ) : ℚ := xs.sum / xs.length

/-- The rolling count as the claims state it: entries of the causal
prefix inside the trailing 1-hour window ending at `t.ts`, plus one for
`t` itself. -/
def specCount1h (g : List Txn) (t : Txn) : ℕ :=
  ((causalPast g t).filter (fun e => decide (t.ts < e.ts + 3600))).length + 1

/-- The expanding mean as the claims state it: the mean of the amounts in
the causal prefix. -/
def specAvgAmt (g : List Txn) (t : Txn) : ℚ :=
  listMean ((causalPast g t).map Txn.amt)

/-! ### Helper lemmas on the stable timestamp sort -/

theorem sortTs_sorted (l : List Txn) : List.Sorted tsLe (sortTs l) :=
  List.sorted_insertionSort tsLe l

theorem mem_left_le {l₁ : List Txn} {t : Txn} {l₂ : List Txn}
    (hs : List.Sorted tsLe (l₁ ++ t :: l₂)) : ∀ x ∈ l₁, x.ts ≤ t.ts := by
  intro x hx
  exact (List.pairwise_append.mp hs).2.2 x hx t (List.mem_cons_self t l₂)

theorem mem_right_ge {l₁ : List Txn} {t : Txn} {l₂ : List Txn}
    (hs : List.Sorted tsLe (l₁ ++ t :: l₂)) : ∀ y ∈ l₂, t.ts ≤ y.ts := by
  intro y hy
  exact (List.pairwise_cons.mp (List.pairwise_append.mp hs).2.1).1 y hy

theorem orderedInsert_front {x : Txn} :
    ∀ s : List Txn, (∀ b ∈ s, tsLe x b) → s.orderedInsert tsLe x = x :: s
  | [], _ => rfl
  | b :: s2, h => List.orderedInsert_of_le tsLe s2 (h b (List.mem_cons_self b s2))

theorem orderedInsert_erase_commute (u x : Txn) (hne : u ≠ x) :
    ∀ s : List Txn, List.Sorted tsLe s →
      (s.erase u).orderedInsert tsLe x = (s.orderedInsert tsLe x).erase u := by
  intro s
  induction s with
  | nil =>
    intro _
    simp [List.orderedInsert, List.erase_cons, Ne.symm hne]
  | cons h s ih =>
    intro hs
    have hs' : List.Sorted tsLe s := (List.sorted_cons.mp hs).2
    have hhead : ∀ b ∈ s, tsLe h b := (List.sorted_cons.mp hs).1
    have hxu : ¬(x == u) := by simp [Ne.symm hne]
    by_cases hh : h = u
    · subst hh
      rw [List.erase_cons_head]
      simp only [List.orderedInsert]
      split_ifs with hxh
      · rw [List.erase_cons_tail hxu, List.erase_cons_head]
        exact orderedInsert_front s (fun b hb => le_trans hxh (hhead b hb))
      · rw [List.erase_cons_head]
    · have hhu : ¬(h == u) := by simp [hh]
      rw [List.erase_cons_tail hhu]
      simp only [List.orderedInsert]
      split_ifs with hxh
      · rw [List.erase_cons_tail hxu, List.erase_cons_tail hhu]
      · rw [List.erase_cons_tail hhu, ih hs']

theorem sortTs_erase (u : Txn) :
    ∀ m : List Txn, u ∈ m → sortTs (m.erase u) = (sortTs m).erase u := by
  intro m
  induction m with
  | nil => intro h; cases h
  | cons x m ih =>
    intro hu
    by_cases hx : x = u
    · subst hx
      rw [List.erase_cons_head]
      exact (List.erase_orderedInsert x (sortTs m)).symm
    · have hu' : u ∈ m := by
        rcases List.mem_cons.mp hu with h | h
        · exact absurd h.symm hx
        · exact h
      rw [List.erase_cons_tail (show ¬(x == u) by simp [hx])]
      show List.orderedInsert tsLe x (sortTs (m.erase u)) =
        (List.orderedInsert tsLe x (sortTs m)).erase u
      rw [ih hu']
      exact orderedInsert_erase_commute u x (fun h => hx h.symm) (sortTs m) (sortTs_sorted m)

theorem filter_erase_comm (q : Txn → Bool) (u : Txn) (hq : q u = true) :
    ∀ m : List Txn, (m.erase u).filter q = (m.filter q).erase u := by
  intro m
  induction m with
  | nil => rfl
  | cons x m ih =>
    by_cases hx : x = u
    · subst hx
      rw [List.erase_cons_head, List.filter_cons_of_pos hq, List.erase_cons_head]
    · rw [List.erase_cons_tail (show ¬(x == u) by simp [hx])]
      by_cases hqx : q x = true
      · rw [List.filter_cons_of_pos hqx, List.filter_cons_of_pos hqx,
          List.erase_cons_tail (show ¬(x == u) by simp [hx]), ih]
      · rw [List.filter_cons_of_neg (by simp [hqx]), List.filter_cons_of_neg (by simp [hqx]), ih]

theorem causalPast_decomp (l₁ : List Txn) (t : Txn) (l₂ : List Txn)
    (hs : List.Sorted tsLe (l₁ ++ t :: l₂))
    (hd : (l₁ ++ t :: l₂).Pairwise (fun a b => a.ts ≠ b.ts)) :
    causalPast (l₁ ++ t :: l₂) t = l₁ := by
  unfold causalPast
  rw [List.filter_append]
  have h1 : l₁.filter (fun e => decide (e.ts < t.ts)) = l₁ := by
    apply List.filter_eq_self.mpr
    intro x hx
    have hle := mem_left_le hs x hx
    have hne : x.ts ≠ t.ts :=
      (List.pairwise_append.mp hd).2.2 x hx t (List.mem_cons_self t l₂)
    exact decide_eq_true (lt_of_le_of_ne hle hne)
  have h2 : (t :: l₂).filter (fun e => decide (e.ts < t.ts)) = [] := by
    apply List.filter_eq_nil_iff.mpr
    intro y hy
    rcases List.mem_cons.mp hy with h | h
    · subst h; simp
    · have := mem_right_ge hs y h
      simp
      omega
  rw [h1, h2, List.append_nil]

/-! ### Claim theorems: decision logic -/

/-- C3: Decision tiering of `predict_fraud` (backend_api.py lines 202-214):
for every fraud probability `p` in `[0,1]`, `p ≥ 0.8` gives BLOCK with high
confidence, `0.5 ≤ p < 0.8` gives REVIEW with medium confidence,
`0.2 ≤ p < 0.5` gives ALLOW with medium confidence, `p < 0.2` gives ALLOW
with high confidence; in particular `p = 0.8` gives BLOCK. -/
theorem c3_decision_tiering (p : ℚ) (h0 : 0 ≤ p) (h1 : p ≤ 1) :
    ((0.8 : ℚ) ≤ p → backendDecision p = (Decision.BLOCK, Confidence.high)) ∧
    ((0.5 : ℚ) ≤ p → p < (0.8 : ℚ) →
      backendDecision p = (Decision.REVIEW, Confidence.medium)) ∧
    ((0.2 : ℚ) ≤ p → p < (0.5 : ℚ) →
      backendDecision p = (Decision.ALLOW, Confidence.medium)) ∧
    (p < (0.2 : ℚ) → backendDecision p = (Decision.ALLOW, Confidence.high)) ∧
    backendDecision (0.8 : ℚ) = (Decision.BLOCK, Confidence.high) := by
  refine ⟨fun h => ?_, fun ha hb => ?_, fun ha hb => ?_, fun h => ?_,
    by norm_num [backendDecision]⟩ <;> unfold backendDecision
  · rw [if_pos h]
  · rw [if_neg (by linarith), if_pos ha]
  · rw [if_neg (by linarith), if_neg (by linarith), if_neg (not_lt.mpr ha)]
  · rw [if_neg (by linarith), if_neg (by linarith), if_pos h]

/-- Witness for C3 at the boundary probability 0.8. -/
theorem c3_decision_tiering_witness :
    backendDecision (0.8 : ℚ) = (Decision.BLOCK, Confidence.high) :=
  (c3_decision_tiering 0.8 (by norm_num) (by norm_num)).1 (by norm_num)

/-- C7: `fraud_prediction = 1` iff `p ≥ 0.5` (backend_api.py line 200),
and at `p = 0.5` the backend outputs prediction 1 together with decision
REVIEW at medium confidence. -/
theorem c7_pred_threshold (p : ℚ) (h0 : 0 ≤ p) (h1 : p ≤ 1) :
    (fraudPred p = 1 ↔ (0.5 : ℚ) ≤ p) ∧
    (fraudPred (0.5 : ℚ) = 1 ∧
      backendDecision (0.5 : ℚ) = (Decision.REVIEW, Confidence.medium)) := by
  constructor
  · unfold fraudPred
    split_ifs with h
    · exact ⟨fun _ => h, fun _ => rfl⟩
    · exact ⟨fun hc => absurd hc (by norm_num), fun hc => absurd hc h⟩
  · constructor
    · norm_num [fraudPred]
    · norm_num [backendDecision]

/-- Witness for C7 at the boundary probability 0.5. -/
theorem c7_pred_threshold_witness :
    fraudPred (0.5 : ℚ) = 1 ∧
      backendDecision (0.5 : ℚ) = (Decision.REVIEW, Confidence.medium) :=
  (c7_pred_threshold 0.5 (by norm_num) (by norm_num)).2

/-- C10: the bulk pipeline `predictpipeline.predict`
(src/src/pipeline/predict_pipeline.py lines 60-68) maps prediction 0 to
ALLOW and prediction 1 to BLOCK, and never produces REVIEW for any
probability. -/
theorem c10_bulk_binary_decision (p : ℚ) :
    (bulkDecision p = some Decision.ALLOW ↔ bulkFraudPred p = 0) ∧
    (bulkDecision p = some Decision.BLOCK ↔ bulkFraudPred p = 1) ∧
    bulkDecision p ≠ some Decision.REVIEW ∧
    bulkDecision p ≠ none := by
  unfold bulkDecision bulkFraudPred decisionMap
  split_ifs <;> simp

/-! ### Claim theorems: GeoDistance -/

/-- C8 counterexample: `DataIngestion.haversine` does not fail on
out-of-range coordinates — latitude 100 is outside `[-90, 90]`, yet the
function returns the distance 0 for two identical out-of-range points
instead of raising any `InvalidCoordinate` error (it has no checking or
error path at all). -/
theorem c8_counterexample : haversine 100 0 100 0 = 0 := by
  unfold haversine radiansOf
  simp [sub_self]

/-- C8 amended: coordinate ranges are enforced only by the API request
model `TransactionRequest` (backend_api.py lines 88-91), whose validation
rejects any out-of-range latitude or longitude (as a pydantic validation
error, not an `InvalidCoordinate` error); the haversine computation itself
performs no range check. -/
theorem c8_api_range_validation (lat lon mlat mlon : ℚ)
    (h : lat < -90 ∨ 90 < lat ∨ mlat < -90 ∨ 90 < mlat ∨
      lon < -180 ∨ 180 < lon ∨ mlon < -180 ∨ 180 < mlon) :
    coordsValid lat lon mlat mlon = false := by
  rw [Bool.eq_false_iff]
  intro htrue
  simp only [coordsValid, Bool.and_eq_true, decide_eq_true_eq] at htrue
  obtain ⟨⟨⟨⟨⟨⟨⟨h1, h2⟩, h3⟩, h4⟩, h5⟩, h6⟩, h7⟩, h8⟩ := htrue
  rcases h with h | h | h | h | h | h | h | h <;> linarith

/-- Witness for the amended C8: latitude 100 is rejected. -/
theorem c8_api_range_validation_witness :
    (90 : ℚ) < 100 ∧ coordsValid 100 0 0 0 = false :=
  ⟨by norm_num, c8_api_range_validation 100 0 0 0 (Or.inr (Or.inl (by norm_num)))⟩

theorem sin_half_sq_comm (x y : ℝ) :
    Real.sin ((x - y) / 2) ^ 2 = Real.sin ((y - x) / 2) ^ 2 := by
  rw [show (x - y) / 2 = -((y - x) / 2) by ring, Real.sin_neg]
  ring

/-- C9: the haversine distance is symmetric for in-range coordinates; the
two directions agree exactly, hence within the claimed 1e-6 km
tolerance. -/
theorem c9_haversine_symmetric (lat1 lon1 lat2 lon2 : ℝ)
    (ha : -90 ≤ lat1) (hb : lat1 ≤ 90) (hc : -180 ≤ lon1) (hd : lon1 ≤ 180)
    (he : -90 ≤ lat2) (hf : lat2 ≤ 90) (hg2 : -180 ≤ lon2) (hh : lon2 ≤ 180) :
    |haversine lat1 lon1 lat2 lon2 - haversine lat2 lon2 lat1 lon1| ≤ 1 / 1000000 := by
  have key : haversine lat1 lon1 lat2 lon2 = haversine lat2 lon2 lat1 lon1 := by
    unfold haversine
    dsimp only
    rw [sin_half_sq_comm (radiansOf lat2) (radiansOf lat1),
      sin_half_sq_comm (radiansOf lon2) (radiansOf lon1),
      mul_comm (Real.cos (radiansOf lat1)) (Real.cos (radiansOf lat2))]
  rw [key, sub_self, abs_zero]
  norm_num

/-- Witness for C9 at concrete in-range coordinates. -/
theorem c9_haversine_symmetric_witness :
    |haversine 10 20 30 40 - haversine 30 40 10 20| ≤ 1 / 1000000 :=
  c9_haversine_symmetric 10 20 30 40 (by norm_num) (by norm_num) (by norm_num)
    (by norm_num) (by norm_num) (by norm_num) (by norm_num) (by norm_num)

/-! ### Claim theorems: feature derivation -/

/-- C2: a card's first transaction in derivation order (empty prefix)
receives `txn_time_gap = 0`, `txn_count_1h = 1`,
`avg_amt_per_card = global median amount` and `is_new_merchant = 1`; all
fields of its feature row are totally defined, so no missing value is
produced. -/
theorem c2_empty_history_defaults (df : List Txn) (c : ℕ) (t : Txn) (l₂ : List Txn)
    (hg : cardTxns df c = t :: l₂) :
    (deriveCard df c).head? = some (t, featRow (globalMedian df) [] t) ∧
    (featRow (globalMedian df) [] t).txn_time_gap = 0 ∧
    (featRow (globalMedian df) [] t).txn_count_1h = 1 ∧
    (featRow (globalMedian df) [] t).avg_amt_per_card = globalMedian df ∧
    (featRow (globalMedian df) [] t).is_new_merchant = 1 := by
  unfold deriveCard
  rw [hg]
  simp [deriveAux, featRow, txnTimeGap, txnCount1h, avgAmt, isNewMerchant]

/-- Witness for C2: a one-transaction dataset. -/
theorem c2_empty_history_defaults_witness :
    cardTxns [Txn.mk 7 0 10 3] 7 = Txn.mk 7 0 10 3 :: [] ∧
    (featRow (globalMedian [Txn.mk 7 0 10 3]) [] (Txn.mk 7 0 10 3)).txn_time_gap = 0 ∧
    (featRow (globalMedian [Txn.mk 7 0 10 3]) [] (Txn.mk 7 0 10 3)).txn_count_1h = 1 :=
  ⟨by decide,
    ((c2_empty_history_defaults [Txn.mk 7 0 10 3] 7 (Txn.mk 7 0 10 3) []
      (by decide)).2).1,
    ((c2_empty_history_defaults [Txn.mk 7 0 10 3] 7 (Txn.mk 7 0 10 3) []
      (by decide)).2).2.1⟩

/-- C6 failing input: card 0 transacts at t = 0 s and t = 86700 s
(1 day + 5 minutes later).  The derivation's `diff().dt.seconds` keeps
only the seconds component of the timedelta, so the second transaction
gets `txn_time_gap = 300` although the real gap to the latest entry of
its prefix is 86700 seconds: gaps of one day or more are truncated
modulo 86400. -/
theorem c6_gap_drops_days :
    cardTxns [Txn.mk 0 0 10 0, Txn.mk 0 86700 50 1] 0 =
      [Txn.mk 0 0 10 0, Txn.mk 0 86700 50 1] ∧
    txnTimeGap [Txn.mk 0 0 10 0] (Txn.mk 0 86700 50 1) = 300 ∧
    (deriveCard [Txn.mk 0 0 10 0, Txn.mk 0 86700 50 1] 0).map
      (fun x => x.2.txn_time_gap) = [0, 300] ∧
    (300 : ℕ) ≠ 86700 - 0 := by
  decide

/-- C4 counterexample: two transactions of card 0 share the timestamp 0.
The strict causal prefix of the second-sorted one is empty, so the claim
demands `txn_count_1h = 1`, but the rolling count also counts the
same-timestamp row that precedes it in the sorted order and yields 2. -/
theorem c4_counterexample :
    cardTxns [Txn.mk 0 0 10 0, Txn.mk 0 0 30 1] 0 =
      [Txn.mk 0 0 10 0, Txn.mk 0 0 30 1] ∧
    txnCount1h [Txn.mk 0 0 10 0] (Txn.mk 0 0 30 1) = 2 ∧
    specCount1h (cardTxns [Txn.mk 0 0 10 0, Txn.mk 0 0 30 1] 0) (Txn.mk 0 0 30 1) = 1 ∧
    (2 : ℕ) ≠ 1 := by
  decide

/-- C4 amended: whenever the card's timestamps are pairwise distinct, the
rolling count computed for a row equals the number of causal-prefix
entries inside the right-closed trailing 1-hour window, plus one for the
row itself (with equal timestamps, same-timestamp rows that sort earlier
are also counted). -/
theorem c4_amended (df : List Txn) (c : ℕ) (l₁ : List Txn) (t : Txn) (l₂ : List Txn)
    (hg : cardTxns df c = l₁ ++ t :: l₂)
    (hd : (l₁ ++ t :: l₂).Pairwise (fun a b => a.ts ≠ b.ts)) :
    txnCount1h l₁ t = specCount1h (cardTxns df c) t := by
  have hs : List.Sorted tsLe (l₁ ++ t :: l₂) := by
    rw [← hg]; exact sortTs_sorted _
  rw [hg]
  unfold specCount1h
  rw [causalPast_decomp l₁ t l₂ hs hd]
  rfl

/-- Witness for the amended C4. -/
theorem c4_amended_witness :
    txnCount1h [Txn.mk 0 0 10 0] (Txn.mk 0 50 20 1) =
      specCount1h (cardTxns [Txn.mk 0 0 10 0, Txn.mk 0 50 20 1] 0) (Txn.mk 0 50 20 1) :=
  c4_amended [Txn.mk 0 0 10 0, Txn.mk 0 50 20 1] 0 [Txn.mk 0 0 10 0]
    (Txn.mk 0 50 20 1) [] (by decide) (by decide)

/-- C5 counterexample: card 0 transacts amount 10 at t = 0, then amounts
20 and 40 both at t = 5.  For the third-sorted row the causal prefix is
only the t = 0 entry, so the claim demands `avg_amt_per_card = 10`, but
the expanding mean averages both preceding sorted rows and yields 15. -/
theorem c5_counterexample :
    cardTxns [Txn.mk 0 0 10 0, Txn.mk 0 5 20 1, Txn.mk 0 5 40 2] 0 =
      [Txn.mk 0 0 10 0, Txn.mk 0 5 20 1, Txn.mk 0 5 40 2] ∧
    avgAmt (globalMedian [Txn.mk 0 0 10 0, Txn.mk 0 5 20 1, Txn.mk 0 5 40 2])
      [Txn.mk 0 0 10 0, Txn.mk 0 5 20 1] = 15 ∧
    specAvgAmt (cardTxns [Txn.mk 0 0 10 0, Txn.mk 0 5 20 1, Txn.mk 0 5 40 2] 0)
      (Txn.mk 0 5 40 2) = 10 ∧
    (15 : ℚ) ≠ 10 := by
  refine ⟨by decide, by norm_num [avgAmt], ?_, by norm_num⟩
  rw [show cardTxns [Txn.mk 0 0 10 0, Txn.mk 0 5 20 1, Txn.mk 0 5 40 2] 0 =
    [Txn.mk 0 0 10 0, Txn.mk 0 5 20 1, Txn.mk 0 5 40 2] from by decide]
  norm_num [specAvgAmt, causalPast, listMean]

/-- C5 amended: whenever the card's timestamps are pairwise distinct and
the prefix is non-empty, `avg_amt_per_card` equals the arithmetic mean of
the causal-prefix amounts (with equal timestamps, same-timestamp rows
that sort earlier are also averaged); `amt_deviation` is always
`amt / (avg_amt_per_card + 1)`. -/
theorem c5_amended (df : List Txn) (c : ℕ) (l₁ : List Txn) (t : Txn) (l₂ : List Txn)
    (hg : cardTxns df c = l₁ ++ t :: l₂)
    (hd : (l₁ ++ t :: l₂).Pairwise (fun a b => a.ts ≠ b.ts))
    (hne : l₁ ≠ []) :
    avgAmt (globalMedian df) l₁ = specAvgAmt (cardTxns df c) t ∧
    amtDeviation (globalMedian df) l₁ t = t.amt / (avgAmt (globalMedian df) l₁ + 1) := by
  have hs : List.Sorted tsLe (l₁ ++ t :: l₂) := by
    rw [← hg]; exact sortTs_sorted _
  constructor
  · rw [hg]
    unfold specAvgAmt
    rw [causalPast_decomp l₁ t l₂ hs hd]
    cases l₁ with
    | nil => exact absurd rfl hne
    | cons a as => simp [avgAmt, listMean]
  · rfl

/-- Witness for the amended C5. -/
theorem c5_amended_witness :
    avgAmt (globalMedian [Txn.mk 0 0 10 0, Txn.mk 0 50 20 1]) [Txn.mk 0 0 10 0] =
      specAvgAmt (cardTxns [Txn.mk 0 0 10 0, Txn.mk 0 50 20 1] 0) (Txn.mk 0 50 20 1) :=
  (c5_amended [Txn.mk 0 0 10 0, Txn.mk 0 50 20 1] 0 [Txn.mk 0 0 10 0]
    (Txn.mk 0 50 20 1) [] (by decide) (by decide) (by decide)).1

/-- C1 counterexample: dataset of card 0 with rows (t = 0, amt 10),
(t = 0, amt 30), (t = 100, amt 100).  Removing the first row — whose
timestamp is ≥ the second row's — changes the second row's rolling count
from 2 to 1; and removing the last row — whose timestamp is ≥ the first
row's — changes the global median from 30 to 20 and with it the first
row's `avg_amt_per_card` fallback.  So the removal-invariance claim fails
as stated. -/
theorem c1_counterexample :
    cardTxns [Txn.mk 0 0 10 0, Txn.mk 0 0 30 1, Txn.mk 0 100 100 2] 0 =
      [Txn.mk 0 0 10 0, Txn.mk 0 0 30 1, Txn.mk 0 100 100 2] ∧
    txnCount1h [Txn.mk 0 0 10 0] (Txn.mk 0 0 30 1) = 2 ∧
    cardTxns (([Txn.mk 0 0 10 0, Txn.mk 0 0 30 1, Txn.mk 0 100 100 2] : List Txn).erase
      (Txn.mk 0 0 10 0)) 0 = [Txn.mk 0 0 30 1, Txn.mk 0 100 100 2] ∧
    txnCount1h [] (Txn.mk 0 0 30 1) = 1 ∧
    avgAmt (globalMedian [Txn.mk 0 0 10 0, Txn.mk 0 0 30 1, Txn.mk 0 100 100 2]) [] = 30 ∧
    avgAmt (globalMedian (([Txn.mk 0 0 10 0, Txn.mk 0 0 30 1, Txn.mk 0 100 100 2] :
      List Txn).erase (Txn.mk 0 100 100 2))) [] = 20 ∧
    ((2 : ℕ) ≠ 1 ∧ (30 : ℚ) ≠ 20) := by
  refine ⟨by decide, by decide, by decide, by decide, ?_, ?_, by norm_num⟩
  · norm_num [avgAmt, globalMedian, medianQ, List.insertionSort, List.orderedInsert]
  · norm_num [avgAmt, globalMedian, medianQ, List.insertionSort, List.orderedInsert,
      List.erase_cons, Txn.mk.injEq]

/-- C1 amended: removing a same-card transaction whose timestamp is
*strictly greater* than T's leaves T's sorted prefix — and hence
`txn_time_gap`, `txn_count_1h` and `is_new_merchant` — unchanged, and
also leaves `avg_amt_per_card` and `amt_deviation` unchanged whenever T
is not its card's first row; a first row's `avg_amt_per_card` is the
global median of the whole dataset, which the removal may change, and
removing a same-timestamp transaction may change every statistic. -/
theorem c1_amended (df : List Txn) (c : ℕ) (u : Txn) (l₁ : List Txn) (t : Txn)
    (l₂ : List Txn) (hu : u ∈ df) (hc : u.cc_num = c)
    (hg : cardTxns df c = l₁ ++ t :: l₂) (hts : t.ts < u.ts) :
    cardTxns (df.erase u) c = l₁ ++ t :: (l₂.erase u) ∧
    (featRow (globalMedian (df.erase u)) l₁ t).txn_time_gap =
      (featRow (globalMedian df) l₁ t).txn_time_gap ∧
    (featRow (globalMedian (df.erase u)) l₁ t).txn_count_1h =
      (featRow (globalMedian df) l₁ t).txn_count_1h ∧
    (featRow (globalMedian (df.erase u)) l₁ t).is_new_merchant =
      (featRow (globalMedian df) l₁ t).is_new_merchant ∧
    (l₁ ≠ [] → featRow (globalMedian (df.erase u)) l₁ t =
      featRow (globalMedian df) l₁ t) := by
  have hqu : (fun x : Txn => x.cc_num == c) u = true := by simp [hc]
  have hs : List.Sorted tsLe (l₁ ++ t :: l₂) := by
    rw [← hg]; exact sortTs_sorted _
  refine ⟨?_, rfl, rfl, rfl, ?_⟩
  · unfold cardTxns
    rw [filter_erase_comm _ u hqu df,
      sortTs_erase u _ (List.mem_filter.mpr ⟨hu, hqu⟩)]
    have hg' : sortTs (df.filter (fun x => x.cc_num == c)) = l₁ ++ t :: l₂ := hg
    rw [hg']
    have hnotmem : u ∉ l₁ := by
      intro hmem
      exact absurd hts (not_lt.mpr (mem_left_le hs u hmem))
    have htu : ¬(t == u) := by
      simp only [beq_iff_eq]
      intro h
      rw [h] at hts
      exact lt_irrefl _ hts
    rw [List.erase_append_right _ hnotmem, List.erase_cons_tail htu]
  · intro hne
    have havg : avgAmt (globalMedian (df.erase u)) l₁ = avgAmt (globalMedian df) l₁ := by
      cases l₁ with
      | nil => exact absurd rfl hne
      | cons a as => simp [avgAmt]
    unfold featRow amtDeviation
    rw [havg]

/-- Witness for the amended C1: removing the strictly later third row
leaves the second row's sorted prefix intact. -/
theorem c1_amended_witness :
    cardTxns (([Txn.mk 0 0 10 0, Txn.mk 0 50 20 1, Txn.mk 0 100 40 2] :
        List Txn).erase (Txn.mk 0 100 40 2)) 0 =
      [Txn.mk 0 0 10 0] ++ Txn.mk 0 50 20 1 ::
        (([Txn.mk 0 100 40 2] : List Txn).erase (Txn.mk 0 100 40 2)) :=
  (c1_amended [Txn.mk 0 0 10 0, Txn.mk 0 50 20 1, Txn.mk 0 100 40 2] 0
    (Txn.mk 0 100 40 2) [Txn.mk 0 0 10 0] (Txn.mk 0 50 20 1) [Txn.mk 0 100 40 2]
    (by decide) rfl (by decide) (by decide)).1

end Fraud
